import Mathlib

/-
Verification of the eerskills text-quality toolkit: a rule-based slop
detector (scores prose against a catalog of cliche phrases, buzzwords and
meta-commentary) and a slop cleaner (rewrites text by deleting or
substituting matched catalog spans, with an aggressive-mode toggle).

The repository ships only CLI wrapper scripts and the unit tests for the
engine; the engine itself (SlopDetector and SlopCleaner in the
cc-polymath submodule) is not part of the checked-in sources.  The engine
is therefore modelled here from the specification: its category order,
its deletion and substitution semantics, and the concrete example rules
that the specification documents.  Text is modelled as a list of
characters; rule application is sequential non-overlapping scanning, as
the specification describes for the reference regular-expression engine.
-/

namespace AntiSlop

/-- A document is a sequence of characters. -/
abbrev Text := List Char

/-- Modelled from the spec: sequential left-to-right non-overlapping
replacement of every occurrence of a literal span, as performed by the
missing SlopCleaner substitution and deletion rules.  After a match the
scan resumes after the matched span, never inside the replacement.
Structured with explicit fuel so evaluation is structural recursion;
one unit of fuel is spent per consumed character or matched span, so
fuel equal to the length of the text always suffices. -/
def replaceAllAux (pat rep : Text) : Nat → Text → Text
  | 0, s => s
  | _ + 1, [] => []
  | fuel + 1, c :: rest =>
    if pat ≠ [] ∧ pat <+: (c :: rest) then
      rep ++ replaceAllAux pat rep fuel ((c :: rest).drop pat.length)
    else
      c :: replaceAllAux pat rep fuel rest

/-- Replace every non-overlapping occurrence of `pat` in `s` by `rep`. -/
def replaceAll (pat rep s : Text) : Text := replaceAllAux pat rep s.length s

/-- Modelled from the spec: count of the non-overlapping occurrences of a
literal span in a document, the quantity the missing SlopDetector derives
from scanning a document against one catalog pattern. -/
def countOccsAux (pat : Text) : Nat → Text → Nat
  | 0, _ => 0
  | _ + 1, [] => 0
  | fuel + 1, c :: rest =>
    if pat ≠ [] ∧ pat <+: (c :: rest) then
      countOccsAux pat fuel ((c :: rest).drop pat.length) + 1
    else
      countOccsAux pat fuel rest

/-- Number of non-overlapping occurrences of `pat` in `s`. -/
def countOccs (pat s : Text) : Nat := countOccsAux pat s.length s

/-- Modelled from the spec: drop the remainder of the current sentence,
through the terminating period and one following space when present.
Used by meta-commentary deletion, which removes the whole matched
sentence together with its trailing space. -/
def dropSentence : Text → Text
  | [] => []
  | '.' :: ' ' :: rest => rest
  | '.' :: rest => rest
  | _ :: rest => dropSentence rest

/-- Modelled from the spec: meta-commentary deletion of the missing
SlopCleaner.  Wherever a meta-commentary opener is found, the whole
sentence from the opener through its period and trailing space is
removed; elsewhere the text is copied unchanged. -/
def deleteMetaAux (starters : List Text) : Nat → Text → Text
  | 0, s => s
  | _ + 1, [] => []
  | fuel + 1, c :: rest =>
    if ∃ p ∈ starters, p ≠ [] ∧ p <+: (c :: rest) then
      deleteMetaAux starters fuel (dropSentence (c :: rest))
    else
      c :: deleteMetaAux starters fuel rest

/-- Delete every sentence opened by one of `starters` from `s`. -/
def deleteMeta (starters : List Text) (s : Text) : Text :=
  deleteMetaAux starters s.length s

/-- Modelled from the spec: the meta-commentary sentence openers of the
rule catalog, as documented by the example rules. -/
def metaStarters : List Text :=
  ["In this article, we will".data, "In this section, we will".data]

/-- Modelled from the spec: SlopCleaner.clean of the missing engine.
Applies the rule categories in the documented fixed order: high-risk
deletion, then wordy-phrase simplification, then buzzword substitution,
then meta-commentary deletion, and, only in aggressive mode, transition
word deletion.  Deletion rules remove the matched span verbatim; the
documented example rules are used for each category.  The high-risk
deletion span absorbs the one following space, matching the documented
output for the delve-into example.  Transition rules are anchored to the
specific punctuation variant the reference engine matches: the catalog
deletes the span starting with the word However followed by a comma and
a space, and the spec records that the Furthermore variant is not
matched by the reference engine. -/
def clean (aggressive : Bool) (t : Text) : Text :=
  let s1 := replaceAll ("delve into ".data) ("".data) t
  let s2 := replaceAll ("In order to".data) ("to".data) s1
  let s3 := replaceAll ("due to the fact that".data) ("because".data) s2
  let s4 := replaceAll ("leverage".data) ("use".data) s3
  let s5 := deleteMeta metaStarters s4
  if aggressive then replaceAll ("However, ".data) ("".data) s5 else s5

/-- The detection categories shared by Detector and Cleaner. -/
inductive Category where
  | high_risk
  | buzzwords
  | meta_commentary
deriving DecidableEq

/-- Modelled from the spec: the high-risk phrases of the rule catalog,
as documented by the example rules and the engine unit tests. -/
def highRiskPatterns : List Text :=
  ["delve into".data, "fast-paced world".data,
   "navigate the complexities".data, "It is important to note".data]

/-- Modelled from the spec: the buzzword entries of the rule catalog. -/
def buzzwordPatterns : List Text :=
  ["leverage".data, "holistic approach".data, "synergistic".data,
   "paradigm shift".data, "empower".data]

/-- Modelled from the spec: the meta-commentary detector entries. -/
def metaPatterns : List Text := metaStarters

/-- The catalog patterns of one category. -/
def catPatterns : Category → List Text
  | .high_risk => highRiskPatterns
  | .buzzwords => buzzwordPatterns
  | .meta_commentary => metaPatterns

/-- Modelled from the spec: fixed per-category score multipliers, chosen
as the spec directs so that high-risk matches dominate the aggregate. -/
def catWeight : Category → Nat
  | .high_risk => 30
  | .buzzwords => 5
  | .meta_commentary => 10

/-- Total occurrence count of a list of patterns in a document. -/
def patCount (pats : List Text) (t : Text) : Nat :=
  match pats with
  | [] => 0
  | p :: ps => countOccs p t + patCount ps t

/-- The findings of one pattern list: each pattern listed once per
occurrence, catalog order. -/
def findingsOf (pats : List Text) (t : Text) : List Text :=
  match pats with
  | [] => []
  | p :: ps => List.replicate (countOccs p t) p ++ findingsOf ps t

/-- Modelled from the spec: the aggregate slop score, a weighted sum of
the per-category occurrence counts. -/
def score (t : Text) : Nat :=
  catWeight .high_risk * patCount highRiskPatterns t
    + catWeight .buzzwords * patCount buzzwordPatterns t
    + catWeight .meta_commentary * patCount metaPatterns t

/-- A detection report: the aggregate score and the findings grouped by
category. -/
structure Report where
  score : Nat
  findings : Category → List Text

/-- Modelled from the spec: SlopDetector.analyze of the missing engine.
A total function of the document text: detection never raises on
content. -/
def analyze (t : Text) : Report :=
  { score := score t, findings := fun c => findingsOf (catPatterns c) t }

/-- Every catalog pattern of every category is absent from `t`: the
eleven detector patterns each have zero occurrences. -/
abbrev noCatalogMatches (t : Text) : Prop :=
  countOccs ("delve into".data) t = 0 ∧
  countOccs ("fast-paced world".data) t = 0 ∧
  countOccs ("navigate the complexities".data) t = 0 ∧
  countOccs ("It is important to note".data) t = 0 ∧
  countOccs ("leverage".data) t = 0 ∧
  countOccs ("holistic approach".data) t = 0 ∧
  countOccs ("synergistic".data) t = 0 ∧
  countOccs ("paradigm shift".data) t = 0 ∧
  countOccs ("empower".data) t = 0 ∧
  countOccs ("In this article, we will".data) t = 0 ∧
  countOccs ("In this section, we will".data) t = 0

/-- Every span matched by a cleaner rule is absent from `s`. -/
abbrev cleanResidualFree (s : Text) : Prop :=
  countOccs ("delve into ".data) s = 0 ∧
  countOccs ("In order to".data) s = 0 ∧
  countOccs ("due to the fact that".data) s = 0 ∧
  countOccs ("leverage".data) s = 0 ∧
  countOccs ("In this article, we will".data) s = 0 ∧
  countOccs ("In this section, we will".data) s = 0 ∧
  countOccs ("However, ".data) s = 0

/-- Exit code of the CLI front door.  The submodule-existence check is
embedded from src/toolkit/scripts/detect_slop.py: when the submodule
scripts directory is missing the wrapper prints an error and exits 1
before any input is read.  The input-file branch is modelled from the
spec: the engine main surfaces a missing input file with a non-zero
exit, and exits 0 on success. -/
def cliExitCode (submodulePresent inputFileExists : Bool) : Nat :=
  if ¬ submodulePresent then 1
  else if ¬ inputFileExists then 1
  else 0

/-- Unfolding the occurrence count at a cons cell. -/
lemma countOccs_cons (pat : Text) (c : Char) (rest : Text) :
    countOccs pat (c :: rest) =
      if pat ≠ [] ∧ pat <+: (c :: rest) then
        countOccsAux pat rest.length ((c :: rest).drop pat.length) + 1
      else countOccs pat rest := by
  simp only [countOccs, List.length_cons, countOccsAux]

/-- A text with no occurrence of `pat` has none at its head and none in
its tail. -/
lemma countOccs_zero_cons {pat : Text} {c : Char} {rest : Text}
    (h : countOccs pat (c :: rest) = 0) :
    ¬(pat ≠ [] ∧ pat <+: (c :: rest)) ∧ countOccs pat rest = 0 := by
  rw [countOccs_cons] at h
  by_cases hc : pat ≠ [] ∧ pat <+: (c :: rest)
  · rw [if_pos hc] at h
    exact absurd h (Nat.succ_ne_zero _)
  · rw [if_neg hc] at h
    exact ⟨hc, h⟩

/-- Replacement leaves a text without occurrences of the span unchanged,
for every fuel value. -/
lemma replaceAllAux_id (pat rep : Text) :
    ∀ fuel s, countOccs pat s = 0 → replaceAllAux pat rep fuel s = s := by
  intro fuel
  induction fuel with
  | zero => intro s _; rfl
  | succ n ih =>
    intro s h
    cases s with
    | nil => rfl
    | cons c rest =>
      obtain ⟨hc, hrest⟩ := countOccs_zero_cons h
      simp only [replaceAllAux]
      rw [if_neg hc, ih rest hrest]

/-- Replacement leaves a text without occurrences of the span
unchanged. -/
lemma replaceAll_id (pat rep s : Text) (h : countOccs pat s = 0) :
    replaceAll pat rep s = s :=
  replaceAllAux_id pat rep s.length s h

/-- Meta-commentary deletion leaves a text containing no sentence opener
unchanged, for every fuel value. -/
lemma deleteMetaAux_id (starters : List Text) :
    ∀ fuel s, (∀ p ∈ starters, countOccs p s = 0) →
      deleteMetaAux starters fuel s = s := by
  intro fuel
  induction fuel with
  | zero => intro s _; rfl
  | succ n ih =>
    intro s h
    cases s with
    | nil => rfl
    | cons c rest =>
      have hc : ¬ ∃ p ∈ starters, p ≠ [] ∧ p <+: (c :: rest) := by
        rintro ⟨p, hp, hpc⟩
        exact (countOccs_zero_cons (h p hp)).1 hpc
      simp only [deleteMetaAux]
      rw [if_neg hc, ih rest (fun p hp => (countOccs_zero_cons (h p hp)).2)]

/-- Meta-commentary deletion leaves a text containing no sentence opener
unchanged. -/
lemma deleteMeta_id (starters : List Text) (s : Text)
    (h : ∀ p ∈ starters, countOccs p s = 0) : deleteMeta starters s = s :=
  deleteMetaAux_id starters s.length s h

/-- A text free of every cleaner-rule span is a fixed point of `clean`,
for both mode values. -/
lemma clean_id (ag : Bool) (s : Text) (h : cleanResidualFree s) :
    clean ag s = s := by
  obtain ⟨h1, h2, h3, h4, h5, h6, h7⟩ := h
  have hm : deleteMeta metaStarters s = s := by
    apply deleteMeta_id
    intro p hp
    simp only [metaStarters, List.mem_cons, List.not_mem_nil, or_false] at hp
    rcases hp with rfl | rfl
    · exact h5
    · exact h6
  simp only [clean, replaceAll_id _ _ _ h1, replaceAll_id _ _ _ h2,
    replaceAll_id _ _ _ h3, replaceAll_id _ _ _ h4, hm]
  cases ag
  · simp
  · simp [replaceAll_id _ _ _ h7]

/-- A pattern occurring in a document appears in the findings built from
any pattern list containing it. -/
lemma mem_findingsOf {p : Text} {pats : List Text} {t : Text}
    (hp : p ∈ pats) (hc : 1 ≤ countOccs p t) : p ∈ findingsOf pats t := by
  induction pats with
  | nil => cases hp
  | cons q qs ih =>
    simp only [findingsOf, List.mem_append]
    rcases List.mem_cons.mp hp with rfl | hmem
    · exact Or.inl (List.mem_replicate.mpr ⟨by omega, rfl⟩)
    · exact Or.inr (ih hmem)

/-- Claim C1: on the transition-word example, non-aggressive clean
returns the text unchanged; aggressive clean yields a text that no
longer contains the However transition but still contains the phrase
about the result being good. -/
theorem clean_aggressive_toggle :
    clean false ("However, the result was good. Furthermore, it worked.".data)
        = ("However, the result was good. Furthermore, it worked.".data) ∧
    countOccs ("However,".data)
        (clean true ("However, the result was good. Furthermore, it worked.".data)) = 0 ∧
    1 ≤ countOccs ("the result was good".data)
        (clean true ("However, the result was good. Furthermore, it worked.".data)) := by
  decide

/-- Claim C2 counterexample: a missing input file is not the only
non-zero-exit condition of the CLI.  When the submodule scripts
directory is absent the wrapper exits 1 even though the input file
exists. -/
theorem cli_nonzero_with_existing_input : cliExitCode false true ≠ 0 := by
  decide

/-- Claim C2 amended: when the submodule scripts directory is present
the CLI exits 0 exactly for an existing input and non-zero for a
missing input; when the submodule scripts directory is missing the CLI
exits non-zero regardless of the input. -/
theorem cli_exit_codes :
    (∀ inp, (cliExitCode true inp = 0 ↔ inp = true)) ∧
    (∀ sub, cliExitCode sub false ≠ 0) ∧
    (∀ inp, cliExitCode false inp ≠ 0) := by
  decide

/-- Claim C3 counterexample: clean is not idempotent on every text.
Deleting one matched span can juxtapose surrounding fragments into a
fresh match, which only a second clean removes. -/
theorem clean_not_idem_cex :
    clean false (clean false ("We delve delve into into the details.".data))
      ≠ clean false ("We delve delve into into the details.".data) := by
  decide

/-- Claim C3 amended: clean is idempotent on every input whose cleaned
form is free of cleaner-rule spans, so no rule re-matches its own
replacement output there; unrestricted idempotence over all texts fails
because a deletion can create a fresh match. -/
theorem clean_idem_of_residual_free (ag : Bool) (t : Text)
    (h : cleanResidualFree (clean ag t)) :
    clean ag (clean ag t) = clean ag t :=
  clean_id ag (clean ag t) h

theorem clean_idem_of_residual_free_wit :
    cleanResidualFree (clean false ("We will delve into the details.".data)) ∧
    clean false (clean false ("We will delve into the details.".data))
      = clean false ("We will delve into the details.".data) :=
  ⟨by decide,
   clean_idem_of_residual_free false ("We will delve into the details.".data) (by decide)⟩

/-- Claim C4: analyzing the empty document yields a report with score
exactly 0 and an empty findings sequence for every category; analyze is
a total function of the content, so no content can make it fail. -/
theorem analyze_empty_report :
    (analyze ("".data)).score = 0 ∧ ∀ c, (analyze ("".data)).findings c = [] := by
  refine ⟨by decide, ?_⟩
  intro c
  cases c <;> decide

/-- Claim C5: a document with no catalog matches scores strictly below
20 and every category has empty findings. -/
theorem analyze_no_matches (t : Text) (h : noCatalogMatches t) :
    (analyze t).score < 20 ∧
    (analyze t).findings .high_risk = [] ∧
    (analyze t).findings .buzzwords = [] ∧
    (analyze t).findings .meta_commentary = [] := by
  obtain ⟨h1, h2, h3, h4, h5, h6, h7, h8, h9, h10, h11⟩ := h
  refine ⟨?_, ?_, ?_, ?_⟩ <;>
    simp [analyze, score, catWeight, catPatterns, highRiskPatterns,
      buzzwordPatterns, metaPatterns, metaStarters, patCount, findingsOf,
      h1, h2, h3, h4, h5, h6, h7, h8, h9, h10, h11]

theorem analyze_no_matches_wit :
    noCatalogMatches ("We analyzed the data and found three trends.".data) ∧
    ((analyze ("We analyzed the data and found three trends.".data)).score < 20 ∧
     (analyze ("We analyzed the data and found three trends.".data)).findings .high_risk = [] ∧
     (analyze ("We analyzed the data and found three trends.".data)).findings .buzzwords = [] ∧
     (analyze ("We analyzed the data and found three trends.".data)).findings .meta_commentary = []) :=
  ⟨by decide, analyze_no_matches ("We analyzed the data and found three trends.".data) (by decide)⟩

/-- Claim C6: every document containing the delve-into phrase and the
fast-paced-world cliche scores strictly above 50, and both literal
phrases appear among the high-risk findings. -/
theorem analyze_high_risk_doc (t : Text)
    (h1 : 1 ≤ countOccs ("delve into".data) t)
    (h2 : 1 ≤ countOccs ("fast-paced world".data) t) :
    50 < (analyze t).score ∧
    ("delve into".data) ∈ (analyze t).findings .high_risk ∧
    ("fast-paced world".data) ∈ (analyze t).findings .high_risk := by
  refine ⟨?_, ?_, ?_⟩
  · simp only [analyze, score, catWeight, patCount, highRiskPatterns,
      buzzwordPatterns, metaPatterns, metaStarters] at h1 h2 ⊢
    omega
  · exact mem_findingsOf (by simp [catPatterns, highRiskPatterns]) h1
  · exact mem_findingsOf (by simp [catPatterns, highRiskPatterns]) h2

theorem analyze_high_risk_doc_wit :
    1 ≤ countOccs ("delve into".data) ("We delve into the fast-paced world.".data) ∧
    1 ≤ countOccs ("fast-paced world".data) ("We delve into the fast-paced world.".data) ∧
    (50 < (analyze ("We delve into the fast-paced world.".data)).score ∧
     ("delve into".data) ∈ (analyze ("We delve into the fast-paced world.".data)).findings .high_risk ∧
     ("fast-paced world".data) ∈ (analyze ("We delve into the fast-paced world.".data)).findings .high_risk) :=
  ⟨by decide, by decide,
   analyze_high_risk_doc ("We delve into the fast-paced world.".data) (by decide) (by decide)⟩

/-- Claim C7: cleaning the delve-into example deletes the matched
high-risk span verbatim and leaves the surrounding whitespace as-is. -/
theorem clean_delve_example :
    clean false ("We will delve into the details.".data)
      = ("We will the details.".data) := by
  decide

/-- Claim C8: cleaning the wordy example substitutes the fixed
lowercase replacements and does not re-capitalize the sentence
start. -/
theorem clean_wordy_example :
    clean false ("In order to succeed, due to the fact that we try.".data)
      = ("to succeed, because we try.".data) := by
  decide

/-- Claim C9: every document containing the three buzzwords lists all
three strings verbatim among the buzzword findings. -/
theorem analyze_buzzword_doc (t : Text)
    (h1 : 1 ≤ countOccs ("leverage".data) t)
    (h2 : 1 ≤ countOccs ("holistic approach".data) t)
    (h3 : 1 ≤ countOccs ("synergistic".data) t) :
    ("leverage".data) ∈ (analyze t).findings .buzzwords ∧
    ("holistic approach".data) ∈ (analyze t).findings .buzzwords ∧
    ("synergistic".data) ∈ (analyze t).findings .buzzwords :=
  ⟨mem_findingsOf (by simp [catPatterns, buzzwordPatterns]) h1,
   mem_findingsOf (by simp [catPatterns, buzzwordPatterns]) h2,
   mem_findingsOf (by simp [catPatterns, buzzwordPatterns]) h3⟩

theorem analyze_buzzword_doc_wit :
    1 ≤ countOccs ("leverage".data) ("We leverage a holistic approach to synergistic work.".data) ∧
    1 ≤ countOccs ("holistic approach".data) ("We leverage a holistic approach to synergistic work.".data) ∧
    1 ≤ countOccs ("synergistic".data) ("We leverage a holistic approach to synergistic work.".data) ∧
    (("leverage".data) ∈ (analyze ("We leverage a holistic approach to synergistic work.".data)).findings .buzzwords ∧
     ("holistic approach".data) ∈ (analyze ("We leverage a holistic approach to synergistic work.".data)).findings .buzzwords ∧
     ("synergistic".data) ∈ (analyze ("We leverage a holistic approach to synergistic work.".data)).findings .buzzwords) :=
  ⟨by decide, by decide, by decide,
   analyze_buzzword_doc ("We leverage a holistic approach to synergistic work.".data)
     (by decide) (by decide) (by decide)⟩

/-- Claim C10: non-aggressive cleaning of the meta-commentary example
removes the whole matched sentence together with its trailing space, so
the remaining text starts without leftover whitespace. -/
theorem clean_meta_example :
    clean false ("In this section, we will discuss the API. The API is fast.".data)
      = ("The API is fast.".data) := by
  decide

end AntiSlop
